import Mathlib

/-!
Verification of the user-adaptive embedding standardization and
similarity-retrieval pipeline of `babelfish_baby`.

Shallow embedding of:
- `app/ai/embedding_standardization.py` (raw vector store, user statistics
  tracker, standardizer, recomputation job),
- `app/vector_db.py` (Chroma similarity index adapter),
- `app/ai/predictions.py` (retrieval-augmented predictor).

Vector components are modelled as rationals (the source uses Python / numpy
floats); all stored vectors share the fixed dimension in practice, and the
elementwise numpy operations are modelled by `List.zipWith` over lists of
equal length.  Stateful SQLAlchemy sessions become explicit `Db` values and
the Chroma collection becomes an explicit list of entries; fallible external
calls (Chroma writes, OpenAI, the feature extractor, commits) are modelled by
explicit outcome parameters.
-/

namespace Babelfish

/-- Feature vectors (numpy float arrays in the source). -/
abbrev Vec := List ℚ

/-- `EMBEDDING_DIM = 1152` from `embedding_standardization.py`. -/
def EMBEDDING_DIM : ℕ := 1152

/-- `EPSILON = 1e-8` from `embedding_standardization.py`. -/
def EPSILON : ℚ := 1 / 100000000

/-- `NUM_SIMILAR_CRIES = 3` from `predictions.py`. -/
def NUM_SIMILAR_CRIES : ℕ := 3

/-- `NUM_CRIES_FOR_PREDICTIONS = 5` from `predictions.py`. -/
def NUM_CRIES_FOR_PREDICTIONS : ℕ := 5

/-- Row of the `CryInstance` table (`app/models.py`), restricted to the
columns the pipeline reads: owner, label state and timestamps.  Nullable
text columns are `Option String`, the nullable Boolean `validation_status`
is `Option Bool`. -/
structure CryInstanceR where
  id : ℕ
  user_id : ℕ
  reason : Option String := none
  solution : Option String := none
  notes : Option String := none
  validation_status : Option Bool := none
  ai_reason : Option String := none
  ai_solution : Option String := none
  recorded_at : String := ""

/-- Row of the `CryEmbeddingRaw` table: one raw embedding per cry, stored
as JSON text in the source (`embedding_json`); modelled as the decoded
vector. -/
structure CryEmbeddingRawR where
  cry_id : ℕ
  embedding_json : Vec

/-- Row of the `UserEmbeddingStats` table: per-user mean/std vectors
(JSON-encoded in the source) and a cry count. -/
structure UserEmbeddingStatsR where
  user_id : ℕ
  mean_json : Vec
  std_json : Vec
  cry_count : ℕ

/-- The relational database state visible to the pipeline. -/
structure Db where
  cries : List CryInstanceR := []
  raws : List CryEmbeddingRawR := []
  stats : List UserEmbeddingStatsR := []

/-- One entry of the Chroma collection `baby_cry_embeddings`: id
`cry_{cry_id}`, the stored vector and the metadata written by
`add_embedding` in `vector_db.py`. -/
structure ChromaEntry where
  cry_id : ℕ
  user_id : ℕ
  embedding : Vec
  has_reason : ℕ
  timestamp : String

/-- The Chroma collection, keyed by `cry_id` (ids are `cry_{cry_id}`). -/
abbrev Collection := List ChromaEntry

/-- Python truthiness of an optional string (`if reason`): `None` and the
empty string are falsy. -/
def truthyStr : Option String → Bool
  | none => false
  | some s => !(s == "")

/-- Metadata flag `"has_reason": 1 if reason else 0` from
`vector_db.add_embedding`. -/
def reasonFlag (reason : Option String) : ℕ :=
  if truthyStr reason then 1 else 0

/-- Insert an entry into the collection under its id, replacing the entry
already stored under the same id if any (the collection is keyed by
`cry_{cry_id}`). -/
def upsertEntry : Collection → ChromaEntry → Collection
  | [], e => [e]
  | x :: xs, e => if x.cry_id = e.cry_id then e :: xs else x :: upsertEntry xs e

/-- `vector_db.add_embedding`: writes the vector with metadata
`cry_id`, `user_id`, `has_reason`, `timestamp` (empty string when absent).
The source re-raises on a Chroma failure; the `ok` parameter is the
outcome of the external write. -/
def add_embedding (col : Collection) (cry_id user_id : ℕ) (embedding : Vec)
    (reason : Option String) (timestamp : Option String) (ok : Bool) :
    Except String Collection :=
  if ok then
    .ok (upsertEntry col
      { cry_id := cry_id, user_id := user_id, embedding := embedding,
        has_reason := reasonFlag reason, timestamp := timestamp.getD "" })
  else .error "chroma add failed"

/-- `vector_db.delete_embedding`: deletes the entry with the given id; a
Chroma failure is caught and logged inside this function (it never raises),
leaving the collection unchanged.  Deleting an absent id is a no-op. -/
def delete_embedding (col : Collection) (cry_id : ℕ) (ok : Bool) : Collection :=
  if ok then col.filter (fun e => !(e.cry_id == cry_id)) else col

/-- Squared L2 distance, the metric of the Chroma collection (default
`l2` space). -/
def sqDist (a b : Vec) : ℚ :=
  (List.zipWith (fun x y => (x - y) ^ 2) a b).sum

/-- One result row of `vector_db.search_similar`: the source returns
`cry_id`, `distance`, `similarity = 1 - distance` and the stored
metadata. -/
structure SimilarHit where
  cry_id : ℕ
  user_id : ℕ
  has_reason : ℕ
  timestamp : String
  distance : ℚ
  similarity : ℚ

/-- Insert a hit into a list ordered by ascending distance. -/
def insertByDist (h : SimilarHit) : List SimilarHit → List SimilarHit
  | [] => [h]
  | x :: xs => if h.distance ≤ x.distance then h :: x :: xs else x :: insertByDist h xs

/-- Order hits by ascending distance (nearest first), as the Chroma query
returns them.  Insertion sort: a deterministic refinement of the index
ordering. -/
def sortByDist (l : List SimilarHit) : List SimilarHit :=
  l.foldr insertByDist []

/-- The `where` clause built by `vector_db.search_similar`: always filters
on the querying user's id, and additionally on `has_reason > 0` when
`filter_validated` is set. -/
def whereMatch (user_id : ℕ) (filter_validated : Bool) (e : ChromaEntry) : Bool :=
  e.user_id == user_id && (!filter_validated || decide (0 < e.has_reason))

/-- `vector_db.search_similar`: KNN query over the collection, filtered by
the `where` clause, nearest first, at most `k` results.  A Chroma failure
is caught inside this function and yields `[]`; `queryOk` is the outcome
of the external query. -/
def search_similar (col : Collection) (user_id : ℕ) (embedding : Vec) (k : ℕ)
    (filter_validated : Bool) (queryOk : Bool) : List SimilarHit :=
  if queryOk then
    (sortByDist ((col.filter (whereMatch user_id filter_validated)).map
      (fun e =>
        { cry_id := e.cry_id, user_id := e.user_id, has_reason := e.has_reason,
          timestamp := e.timestamp, distance := sqDist embedding e.embedding,
          similarity := 1 - sqDist embedding e.embedding }))).take k
  else []

/-- Overwrite the `embedding_json` of the first record with the given
`cry_id` (the in-place update branch of `store_raw_embedding`). -/
def updateRaw : List CryEmbeddingRawR → ℕ → Vec → List CryEmbeddingRawR
  | [], _, _ => []
  | r :: rs, cid, v =>
    if r.cry_id == cid then { r with embedding_json := v } :: rs
    else r :: updateRaw rs cid v

/-- `embedding_standardization.store_raw_embedding`: updates the existing
record for the cry if present, otherwise inserts a new one.  The source
performs no dimension validation. -/
def store_raw_embedding (db : Db) (cry_id : ℕ) (embedding : Vec) : Db :=
  if db.raws.any (fun r => r.cry_id == cry_id) then
    { db with raws := updateRaw db.raws cry_id embedding }
  else
    { db with raws := db.raws ++ [{ cry_id := cry_id, embedding_json := embedding }] }

/-- `embedding_standardization.get_or_initialize_user_stats`: returns the
stored mean/std for the user, creating and persisting
`mean = zeros(EMBEDDING_DIM)`, `std = ones(EMBEDDING_DIM)` on first
access.  Returns the pair together with the possibly extended database. -/
def get_or_initialize_user_stats (db : Db) (user_id : ℕ) : Vec × Vec × Db :=
  match db.stats.find? (fun s => s.user_id == user_id) with
  | some s => (s.mean_json, s.std_json, db)
  | none =>
    let mean : Vec := List.replicate EMBEDDING_DIM 0
    let std : Vec := List.replicate EMBEDDING_DIM 1
    (mean, std,
      { db with stats := db.stats ++
          [{ user_id := user_id, mean_json := mean, std_json := std, cry_count := 0 }] })

/-- `embedding_standardization.standardize_embedding`: elementwise
`(embedding - mean) / (std + EPSILON)` (numpy broadcast over vectors of
the common dimension). -/
def standardize_embedding (embedding mean std : Vec) : Vec :=
  List.zipWith (fun v p => (v - p.1) / (p.2 + EPSILON)) embedding (mean.zip std)

/-- `embedding_standardization.get_user_cry_count`: number of `CryInstance`
rows owned by the user. -/
def get_user_cry_count (db : Db) (user_id : ℕ) : ℕ :=
  (db.cries.filter (fun c => c.user_id == user_id)).length

/-- `embedding_standardization.should_recompute_stats`:
`cry_count > 0 and cry_count % 5 == 0`. -/
def should_recompute_stats (db : Db) (user_id : ℕ) : Bool :=
  let cry_count := get_user_cry_count db user_id
  decide (cry_count > 0) && decide (cry_count % 5 = 0)

/-- Modelled from the spec: the count of raw-embedding-bearing items owned
by a user (the trigger counter the specification describes: items of the
owner that have a `CryEmbeddingRaw` record). -/
def rawBearingCount (db : Db) (user_id : ℕ) : ℕ :=
  (db.cries.filter (fun c =>
    c.user_id == user_id && db.raws.any (fun r => r.cry_id == c.id))).length

/-- Column `d` of a row-major matrix of vectors (all rows have the common
dimension in practice). -/
def columnAt (rows : List Vec) (d : ℕ) : List ℚ :=
  rows.map (fun r => r.getD d 0)

/-- `np.mean` over a list of scalars. -/
def npMean (xs : List ℚ) : ℚ := xs.sum / xs.length

/-- Population variance (`ddof=0`), the square of `np.std`. -/
def npVariance (xs : List ℚ) : ℚ :=
  ((xs.map (fun x => (x - npMean xs) ^ 2)).sum) / xs.length

/-- Dimension of a row-major matrix (numpy shape `(n, D)`). -/
def matDim (rows : List Vec) : ℕ :=
  match rows with
  | [] => 0
  | r :: _ => r.length

/-- `np.mean(embeddings_array, axis=0)`. -/
def npColMean (rows : List Vec) : Vec :=
  (List.range (matDim rows)).map (fun d => npMean (columnAt rows d))

/-- `np.std(embeddings_array, axis=0)`: elementwise square root of the
population variance.  `sqrtFn` stands for the numeric square root (exact
square roots do not exist in ℚ; no claim below depends on its values). -/
def npColStd (sqrtFn : ℚ → ℚ) (rows : List Vec) : Vec :=
  (List.range (matDim rows)).map (fun d => sqrtFn (npVariance (columnAt rows d)))

/-- The ids of the user's cries, as queried by `recompute_user_stats`
(`db.query(CryInstance).filter(user_id == user_id)`). -/
def userCryIds (db : Db) (user_id : ℕ) : List ℕ :=
  (db.cries.filter (fun c => c.user_id == user_id)).map (fun c => c.id)

/-- The raw-embedding records of the user's cries, as queried by
`recompute_user_stats` (`CryEmbeddingRaw.cry_id.in_(cry_ids)`). -/
def userRawRecords (db : Db) (user_id : ℕ) : List CryEmbeddingRawR :=
  db.raws.filter (fun r => (userCryIds db user_id).contains r.cry_id)

/-- Result of the recomputation job: the database and collection after the
run, and `err = some msg` when the job raised (a statistics-commit
failure propagating out of `recompute_user_stats`). -/
structure RecomputeOut where
  dbOut : Db
  colOut : Collection
  err : Option String

/-- One iteration of the re-synchronization loop of
`recompute_user_stats`: look up the owning cry (skip the item if absent),
standardize the raw vector with the new statistics, delete the old index
entry (never raises) and insert the new one (an insert failure is logged
and the loop continues). -/
def resyncItem (db : Db) (user_id : ℕ) (mean std : Vec)
    (deleteOk addOk : ℕ → Bool) (col : Collection) (record : CryEmbeddingRawR) :
    Collection :=
  match db.cries.find? (fun c => c.id == record.cry_id) with
  | none => col
  | some cry =>
    let standardized := standardize_embedding record.embedding_json mean std
    let col1 := delete_embedding col record.cry_id (deleteOk record.cry_id)
    match add_embedding col1 record.cry_id user_id standardized cry.reason
        (some cry.recorded_at) (addOk record.cry_id) with
    | .ok col2 => col2
    | .error _ => col1

/-- `embedding_standardization.recompute_user_stats`: recompute the user's
mean/std from all raw embeddings of the user's cries, persist them, then
re-standardize and re-insert every embedding into the collection.  With no
cries, no raw embeddings, or no statistics record the job logs and returns
without writing.  `commitOk` is the outcome of the statistics commit; when
it fails the exception propagates before any index write. -/
def recompute_user_stats (db : Db) (col : Collection) (user_id : ℕ)
    (sqrtFn : ℚ → ℚ) (commitOk : Bool) (deleteOk addOk : ℕ → Bool) :
    RecomputeOut :=
  let cry_ids := userCryIds db user_id
  if cry_ids.isEmpty then { dbOut := db, colOut := col, err := none }
  else
    let records := userRawRecords db user_id
    if records.isEmpty then { dbOut := db, colOut := col, err := none }
    else
      let rows := records.map (fun r => r.embedding_json)
      let mean := npColMean rows
      let std := npColStd sqrtFn rows
      match db.stats.find? (fun s => s.user_id == user_id) with
      | none => { dbOut := db, colOut := col, err := none }
      | some _ =>
        if commitOk then
          let db1 := { db with stats := db.stats.map (fun s =>
            if s.user_id == user_id then
              { user_id := s.user_id, mean_json := mean, std_json := std,
                cry_count := cry_ids.length }
            else s) }
          { dbOut := db1,
            colOut := records.foldl (resyncItem db1 user_id mean std deleteOk addOk) col,
            err := none }
        else { dbOut := db, colOut := col, err := some "failed to persist statistics" }

/-- Result of `process_and_store_embedding`: the updated stores and
`err = some msg` when the call raised (the Chroma insert re-raise, or a
failure propagating out of the recomputation). -/
structure ProcOut where
  dbOut : Db
  colOut : Collection
  err : Option String

/-- `embedding_standardization.process_and_store_embedding`: store the raw
embedding, get-or-initialize the user's statistics, standardize, insert
into the collection (re-raising on failure), then recompute statistics
when the trigger fires. -/
def process_and_store_embedding (db : Db) (col : Collection) (cry_id user_id : ℕ)
    (raw_embedding : Vec) (reason : Option String) (timestamp : Option String)
    (addOk : Bool) (sqrtFn : ℚ → ℚ) (commitOk : Bool)
    (deleteOkPer addOkPer : ℕ → Bool) : ProcOut :=
  let db1 := store_raw_embedding db cry_id raw_embedding
  match get_or_initialize_user_stats db1 user_id with
  | (mean, std, db2) =>
    let standardized := standardize_embedding raw_embedding mean std
    match add_embedding col cry_id user_id standardized reason timestamp addOk with
    | .error e => { dbOut := db2, colOut := col, err := some e }
    | .ok col1 =>
      if should_recompute_stats db2 user_id then
        let r := recompute_user_stats db2 col1 user_id sqrtFn commitOk deleteOkPer addOkPer
        { dbOut := r.dbOut, colOut := r.colOut, err := r.err }
      else { dbOut := db2, colOut := col1, err := none }

/-- Structured outcome returned by `call_openai_for_prediction` (a Python
dict with keys `reason` and `solution`). -/
structure PredictionR where
  reason : String
  solution : String

/-- `predictions.call_openai_for_prediction`, with the network and JSON
layer abstracted into its outcome: `gen = .error ()` stands for an API
failure or an unparseable (non-JSON) response body, `gen = .ok (r, s)`
for a parsed JSON object with optional `"reason"` and `"solution"`
fields.  A missing client yields `None`; a parse or API failure yields
`None`; missing fields are defaulted (`"Unknown"` / `""`) exactly as
`prediction_data.get` does in the source. -/
def call_openai_for_prediction (clientAvail : Bool)
    (gen : Except Unit (Option String × Option String)) : Option PredictionR :=
  if clientAvail then
    match gen with
    | .error _ => none
    | .ok (r, s) =>
      some { reason := r.getD "Unknown", solution := s.getD "" }
  else none

/-- Count of the user's cries with `validation_status == True` and
`reason IS NOT NULL` (the eligibility-gate query in
`predict_cry_reason`). -/
def validatedLabeledCount (db : Db) (user_id : ℕ) : ℕ :=
  (db.cries.filter (fun c =>
    c.user_id == user_id && c.validation_status == some true && c.reason.isSome)).length

/-- One rendered row of the historical context handed to the generation
service (`reason`, `solution`, `notes`, `similarity`). -/
structure HistoricalItem where
  reason : String
  solution : String
  notes : String
  similarity : ℚ

/-- The dict returned by `predict_cry_reason` (a Python `None` is
`isNothing = true`; absent keys keep their defaults). -/
structure PredictResultR where
  isNothing : Bool := false
  status : String := ""
  message : String := ""
  validated_count : Option ℕ := none
  reason : Option String := none
  solution : Option String := none
  notes : Option String := none
  confidence : Option String := none

/-- Observable side calls of one `predict_cry_reason` invocation:
the vector handed to `search_similar` (when the retrieval step ran),
whether the historical-context loop ran, and whether the generation
service was invoked. -/
structure PredictTrace where
  searchQuery : Option Vec := none
  contextBuilt : Bool := false
  openaiCalled : Bool := false

/-- Full outcome of one `predict_cry_reason` invocation. -/
structure PredictOut where
  result : PredictResultR
  trace : PredictTrace
  dbOut : Db
  colOut : Collection

/-- External outcomes of one `predict_cry_reason` invocation:
`embed` is the MERT feature-extraction result, `gen` the generation
service outcome, and the remaining flags the outcomes of the index and
database writes along the way. -/
structure PredictEnv where
  embed : Except String Vec
  addOk : Bool := true
  sqrtFn : ℚ → ℚ := fun _ => 0
  commitOk : Bool := true
  deleteOkPer : ℕ → Bool := fun _ => true
  addOkPer : ℕ → Bool := fun _ => true
  queryOk : Bool := true
  clientAvail : Bool := true
  gen : Except Unit (Option String × Option String) := .error ()
  finalCommitOk : Bool := true

/-- Steps 6–9 of `predictions.predict_cry_reason` (the part after the
eligibility gate): KNN retrieval with the extracted embedding,
historical-context assembly, generation call, prediction write-back.
`dbp`/`colp` are the stores after `process_and_store_embedding` and
`validated_count` the count queried at the start of the invocation.
The source never includes a `notes` key in the generation outcome, so
`cry.notes` is never overwritten and the returned `notes` is `""`. -/
def predict_retrieval (dbp : Db) (colp : Collection) (cry_id user_id : ℕ)
    (validated_count : ℕ) (embedding : Vec) (env : PredictEnv) : PredictOut :=
  let similar := search_similar colp user_id embedding NUM_SIMILAR_CRIES true env.queryOk
  let tr : PredictTrace := { searchQuery := some embedding }
  if similar.isEmpty then
    let res : PredictResultR :=
      { status := "no_similar_cries",
        message := "No similar cries found in your history" }
    { result := res, trace := tr, dbOut := dbp, colOut := colp }
  else
    let historical : List HistoricalItem := similar.filterMap (fun s =>
      match dbp.cries.find? (fun c => c.id == s.cry_id) with
      | none => none
      | some sc =>
        if truthyStr sc.reason then
          some { reason := sc.reason.getD "",
                 solution := if truthyStr sc.solution then sc.solution.getD "" else "Not recorded",
                 notes := sc.notes.getD "",
                 similarity := s.similarity }
        else none)
    let tr1 : PredictTrace := { tr with contextBuilt := true }
    if historical.isEmpty then
      let res : PredictResultR :=
        { status := "no_historical_data",
          message := "Could not retrieve historical data" }
      { result := res, trace := tr1, dbOut := dbp, colOut := colp }
    else
      let tr2 : PredictTrace := { tr1 with openaiCalled := true }
      match call_openai_for_prediction env.clientAvail env.gen with
      | none =>
        let res : PredictResultR :=
          { status := "prediction_failed",
            message := "Failed to generate prediction" }
        { result := res, trace := tr2, dbOut := dbp, colOut := colp }
      | some prediction =>
        if env.finalCommitOk then
          let db2 := { dbp with cries := dbp.cries.map (fun c =>
            if c.id == cry_id then
              { c with ai_reason := some prediction.reason,
                       ai_solution := some prediction.solution }
            else c) }
          let res : PredictResultR :=
            { status := "success",
              reason := some prediction.reason,
              solution := some prediction.solution,
              notes := some "",
              confidence := some (if NUM_CRIES_FOR_PREDICTIONS ≤ validated_count then "normal" else "low") }
          { result := res, trace := tr2, dbOut := db2, colOut := colp }
        else
          let res : PredictResultR := { status := "error", message := "commit failed" }
          { result := res, trace := tr2, dbOut := dbp, colOut := colp }

/-- `predictions.predict_cry_reason`: the full prediction pipeline.
Mirrors the source control flow: cry lookup (Python `None` when absent),
validated-count query, feature extraction (fatal on failure), embedding
processing (failure caught, execution continues), eligibility gate, then
the retrieval stage `predict_retrieval`. -/
def predict_cry_reason (db : Db) (col : Collection) (cry_id user_id : ℕ)
    (env : PredictEnv) : PredictOut :=
  match db.cries.find? (fun c => c.id == cry_id) with
  | none => { result := { isNothing := true }, trace := {}, dbOut := db, colOut := col }
  | some cry =>
    let validated_count := validatedLabeledCount db user_id
    match env.embed with
    | .error e =>
      { result := { status := "error", message := e }, trace := {},
        dbOut := db, colOut := col }
    | .ok embedding =>
      let p := process_and_store_embedding db col cry_id user_id embedding cry.reason
        (some cry.recorded_at) env.addOk env.sqrtFn env.commitOk env.deleteOkPer env.addOkPer
      if validated_count < NUM_CRIES_FOR_PREDICTIONS then
        let res : PredictResultR :=
          { status := "needs_manual_labeling",
            message := "Please label more recordings before AI predictions can begin",
            validated_count := some validated_count }
        { result := res, trace := {}, dbOut := p.dbOut, colOut := p.colOut }
      else
        predict_retrieval p.dbOut p.colOut cry_id user_id validated_count embedding env

/-! Helper lemmas shared by the claim theorems. -/

theorem mem_insertByDist {a h : SimilarHit} {l : List SimilarHit} :
    a ∈ insertByDist h l ↔ a = h ∨ a ∈ l := by
  induction l with
  | nil => simp [insertByDist]
  | cons x xs ih =>
    by_cases hc : h.distance ≤ x.distance
    · simp [insertByDist, hc]
    · simp [insertByDist, hc, ih]
      tauto

theorem mem_sortByDist {a : SimilarHit} {l : List SimilarHit} :
    a ∈ sortByDist l ↔ a ∈ l := by
  induction l with
  | nil => simp [sortByDist]
  | cons x xs ih =>
    simp only [sortByDist, List.foldr_cons] at ih ⊢
    rw [mem_insertByDist, ih, List.mem_cons]

theorem updateRaw_filter_ne (rs : List CryEmbeddingRawR) (cid : ℕ) (v : Vec) :
    (updateRaw rs cid v).filter (fun r => !(r.cry_id == cid))
      = rs.filter (fun r => !(r.cry_id == cid)) := by
  induction rs with
  | nil => rfl
  | cons r rs ih =>
    by_cases h : r.cry_id == cid
    · simp [updateRaw, h, List.filter_cons]
    · simp [updateRaw, h, List.filter_cons, ih]

theorem updateRaw_filter_eq (rs : List CryEmbeddingRawR) (cid : ℕ) (v : Vec)
    (h1 : (rs.filter (fun r => r.cry_id == cid)).length ≤ 1)
    (h2 : rs.any (fun r => r.cry_id == cid) = true) :
    (updateRaw rs cid v).filter (fun r => r.cry_id == cid)
      = [{ cry_id := cid, embedding_json := v }] := by
  induction rs with
  | nil => simp at h2
  | cons r rs ih =>
    by_cases h : r.cry_id == cid
    · have hcid : r.cry_id = cid := by simpa using h
      have hstep : ((r :: rs).filter (fun x => x.cry_id == cid)).length
          = (rs.filter (fun x => x.cry_id == cid)).length + 1 := by
        rw [List.filter_cons, if_pos h]
        rfl
      have hlen : (rs.filter (fun x => x.cry_id == cid)).length = 0 := by
        rw [hstep] at h1
        omega
      have hnil : rs.filter (fun x => x.cry_id == cid) = [] :=
        List.length_eq_zero.mp hlen
      simp [updateRaw, h, List.filter_cons, hnil, hcid]
    · have h1t : (rs.filter (fun r => r.cry_id == cid)).length ≤ 1 := by
        simpa [List.filter_cons, h] using h1
      have h2t : rs.any (fun r => r.cry_id == cid) = true := by
        simpa [h] using h2
      simpa [updateRaw, h, List.filter_cons] using ih h1t h2t

theorem updateRaw_filter_length (rs : List CryEmbeddingRawR) (cid : ℕ) (v : Vec) :
    ((updateRaw rs cid v).filter (fun r => r.cry_id == cid)).length
      = (rs.filter (fun r => r.cry_id == cid)).length := by
  induction rs with
  | nil => rfl
  | cons r rs ih =>
    by_cases h : r.cry_id == cid <;>
      simp [updateRaw, h, List.filter_cons, ih]

theorem store_raw_raws_of_any_true (db : Db) (cid : ℕ) (v : Vec)
    (h : db.raws.any (fun r => r.cry_id == cid) = true) :
    (store_raw_embedding db cid v).raws = updateRaw db.raws cid v := by
  unfold store_raw_embedding
  rw [if_pos h]

theorem store_raw_raws_of_any_false (db : Db) (cid : ℕ) (v : Vec)
    (h : db.raws.any (fun r => r.cry_id == cid) = false) :
    (store_raw_embedding db cid v).raws
      = db.raws ++ [{ cry_id := cid, embedding_json := v }] := by
  unfold store_raw_embedding
  rw [if_neg (by rw [h]; exact Bool.false_ne_true)]

theorem updateRaw_any (rs : List CryEmbeddingRawR) (cid : ℕ) (v : Vec) :
    (updateRaw rs cid v).any (fun r => r.cry_id == cid)
      = rs.any (fun r => r.cry_id == cid) := by
  induction rs with
  | nil => rfl
  | cons r rs ih =>
    by_cases h : r.cry_id == cid <;> simp [updateRaw, h, ih]

/-! Claim theorems. -/

/-- C5: `standardize_embedding` is a pure elementwise transform computing
`(v[d] - mean[d]) / (std[d] + EPSILON)`, and against the identity
statistics (`mean = zeros`, `std = ones`) it maps each component to
`v[d] / (1 + EPSILON)`. -/
theorem standardize_identity_and_formula (v : Vec) :
    standardize_embedding v (List.replicate v.length 0) (List.replicate v.length 1)
      = v.map (fun x => x / (1 + EPSILON))
    ∧ ∀ (mean std : Vec) (i : ℕ), i < v.length → mean.length = v.length →
        std.length = v.length →
        (standardize_embedding v mean std).getD i 0
          = (v.getD i 0 - mean.getD i 0) / (std.getD i 0 + EPSILON) := by
  constructor
  · induction v with
    | nil => rfl
    | cons a t ih =>
      simpa [standardize_embedding, List.replicate_succ, sub_zero] using ih
  · intro mean std i
    induction v generalizing mean std i with
    | nil => intro hi; simp at hi
    | cons a t ih =>
      intro hi hm hs
      cases mean with
      | nil => simp at hm
      | cons m ms =>
        cases std with
        | nil => simp at hs
        | cons s ss =>
          cases i with
          | zero => simp [standardize_embedding]
          | succ n =>
            have hm2 : ms.length = t.length := by simpa using hm
            have hs2 : ss.length = t.length := by simpa using hs
            have hi2 : n < t.length := by simpa using hi
            simpa [standardize_embedding] using ih ms ss n hi2 hm2 hs2

/-- Witness for C5 at `v = [2, 3]`, `i = 0`. -/
theorem standardize_identity_and_formula_witness :
    ((0 : ℕ) < ([2, 3] : Vec).length
      ∧ ([0, 0] : Vec).length = ([2, 3] : Vec).length
      ∧ ([1, 1] : Vec).length = ([2, 3] : Vec).length)
    ∧ (standardize_embedding [2, 3] [0, 0] [1, 1]).getD 0 0
        = (([2, 3] : Vec).getD 0 0 - ([0, 0] : Vec).getD 0 0)
            / (([1, 1] : Vec).getD 0 0 + EPSILON) :=
  ⟨⟨by decide, by decide, by decide⟩,
    (standardize_identity_and_formula [2, 3]).2 [0, 0] [1, 1] 0
      (by decide) (by decide) (by decide)⟩

/-- Database used to refute C4: user 1 owns five cries but only four of
them carry a raw-embedding record. -/
def exDbC4 : Db :=
  { cries := [{ id := 1, user_id := 1 }, { id := 2, user_id := 1 },
              { id := 3, user_id := 1 }, { id := 4, user_id := 1 },
              { id := 5, user_id := 1 }],
    raws := [{ cry_id := 1, embedding_json := [] }, { cry_id := 2, embedding_json := [] },
             { cry_id := 3, embedding_json := [] }, { cry_id := 4, embedding_json := [] }],
    stats := [] }

/-- C4, counterexample: the trigger fires (five cry instances) although the
count of raw-embedding-bearing items is 4, not a positive multiple of 5:
the trigger counts all of the owner's cry instances, not the
raw-embedding-bearing ones. -/
theorem should_recompute_counterexample :
    should_recompute_stats exDbC4 1 = true
    ∧ rawBearingCount exDbC4 1 = 4
    ∧ ¬(rawBearingCount exDbC4 1 % 5 = 0 ∧ 0 < rawBearingCount exDbC4 1) := by
  decide

/-- C4, amended: the trigger fires exactly when the count of the owner's
cry instances (raw-embedding-bearing or not) is a positive multiple
of 5. -/
theorem should_recompute_iff_multiple (db : Db) (user_id : ℕ) :
    should_recompute_stats db user_id = true
      ↔ ∃ m : ℕ, 0 < m ∧ get_user_cry_count db user_id = 5 * m := by
  unfold should_recompute_stats
  simp only [Bool.and_eq_true, decide_eq_true_eq]
  constructor
  · rintro ⟨hpos, hmod⟩
    exact ⟨get_user_cry_count db user_id / 5, by omega, by omega⟩
  · rintro ⟨m, hm, heq⟩
    omega

/-- Database used to refute C6: user 7 owns one cry but no raw embedding
is stored. -/
def exDbC6 : Db := { cries := [{ id := 1, user_id := 7 }] }

/-- C6, counterexample: with zero raw vectors for the user,
`recompute_user_stats` returns silently, leaving everything unchanged and
raising nothing (there is no `EmptyInputError` anywhere in the source). -/
theorem recompute_empty_counterexample :
    recompute_user_stats exDbC6 [] 7 (fun _ => 0) true (fun _ => true) (fun _ => true)
      = { dbOut := exDbC6, colOut := [], err := none } := rfl

/-- C6, amended: whenever the user has no raw vectors (no cries at all, or
cries without raw-embedding records), `recompute_user_stats` silently
returns — statistics, index and error state unchanged — instead of
failing. -/
theorem recompute_empty_returns_silently (db : Db) (col : Collection) (user_id : ℕ)
    (sqrtFn : ℚ → ℚ) (commitOk : Bool) (deleteOk addOk : ℕ → Bool)
    (h : userRawRecords db user_id = []) :
    recompute_user_stats db col user_id sqrtFn commitOk deleteOk addOk
      = { dbOut := db, colOut := col, err := none } := by
  unfold recompute_user_stats
  by_cases hc : (userCryIds db user_id).isEmpty = true
  · rw [if_pos hc]
  · rw [if_neg hc, h]
    rfl

/-- Collection entry used in the C6 witness. -/
def exEntryC6 : ChromaEntry :=
  { cry_id := 2, user_id := 4, embedding := [], has_reason := 0, timestamp := "" }

/-- Witness for C6's amended theorem: a user with no cries at all. -/
theorem recompute_empty_returns_silently_witness :
    recompute_user_stats {} [exEntryC6] 9 (fun _ => 0) true (fun _ => true) (fun _ => true)
      = { dbOut := {}, colOut := [exEntryC6], err := none } :=
  recompute_empty_returns_silently {} _ 9 _ true _ _ rfl

/-- C7, counterexample: `store_raw_embedding` accepts a vector of length 3
(≠ `EMBEDDING_DIM = 1152`) and stores it; no dimension validation exists
in the source (no `ValidationError` is ever raised). -/
theorem store_raw_no_validation_counterexample :
    (store_raw_embedding {} 1 [1, 2, 3]).raws
      = [{ cry_id := 1, embedding_json := [1, 2, 3] }]
    ∧ ([1, 2, 3] : Vec).length ≠ EMBEDDING_DIM :=
  ⟨rfl, by decide⟩

/-- C7, amended: `store_raw_embedding` upserts unconditionally (no
dimension check): when the store holds at most one record for the id,
storing twice under the same id leaves exactly one record for the id,
holding the latest vector, and leaves the other ids' records
untouched. -/
theorem store_raw_upsert (db : Db) (cid : ℕ) (v1 v2 : Vec)
    (h : (db.raws.filter (fun r => r.cry_id == cid)).length ≤ 1) :
    (store_raw_embedding (store_raw_embedding db cid v1) cid v2).raws.filter
        (fun r => r.cry_id == cid)
      = [{ cry_id := cid, embedding_json := v2 }]
    ∧ (store_raw_embedding (store_raw_embedding db cid v1) cid v2).raws.filter
        (fun r => !(r.cry_id == cid))
      = db.raws.filter (fun r => !(r.cry_id == cid)) := by
  by_cases hany : db.raws.any (fun r => r.cry_id == cid) = true
  · have hA : (store_raw_embedding db cid v1).raws = updateRaw db.raws cid v1 :=
      store_raw_raws_of_any_true db cid v1 hany
    have hanyA : (store_raw_embedding db cid v1).raws.any (fun r => r.cry_id == cid)
        = true := by
      rw [hA, updateRaw_any]; exact hany
    have hB : (store_raw_embedding (store_raw_embedding db cid v1) cid v2).raws
        = updateRaw (store_raw_embedding db cid v1).raws cid v2 :=
      store_raw_raws_of_any_true _ cid v2 hanyA
    have hlenA : ((updateRaw db.raws cid v1).filter (fun r => r.cry_id == cid)).length
        ≤ 1 := by
      rw [updateRaw_filter_length]; exact h
    have hanyA2 : (updateRaw db.raws cid v1).any (fun r => r.cry_id == cid) = true := by
      rw [updateRaw_any]; exact hany
    constructor
    · rw [hB, hA]
      exact updateRaw_filter_eq _ cid v2 hlenA hanyA2
    · rw [hB, hA, updateRaw_filter_ne, updateRaw_filter_ne]
  · have hanyf : db.raws.any (fun r => r.cry_id == cid) = false := by
      cases hx : db.raws.any (fun r => r.cry_id == cid) with
      | true => exact absurd hx hany
      | false => rfl
    have hnil : db.raws.filter (fun r => r.cry_id == cid) = [] := by
      rw [List.filter_eq_nil_iff]
      exact List.any_eq_false.mp hanyf
    have hA : (store_raw_embedding db cid v1).raws
        = db.raws ++ [{ cry_id := cid, embedding_json := v1 }] :=
      store_raw_raws_of_any_false db cid v1 hanyf
    have hanyA : (store_raw_embedding db cid v1).raws.any (fun r => r.cry_id == cid)
        = true := by
      rw [hA]; simp
    have hB : (store_raw_embedding (store_raw_embedding db cid v1) cid v2).raws
        = updateRaw (store_raw_embedding db cid v1).raws cid v2 :=
      store_raw_raws_of_any_true _ cid v2 hanyA
    have hanyA2 : (db.raws ++ [({ cry_id := cid, embedding_json := v1 } : CryEmbeddingRawR)]).any
        (fun r => r.cry_id == cid) = true := by
      simp
    have hlenA : ((db.raws ++ [({ cry_id := cid, embedding_json := v1 } : CryEmbeddingRawR)]).filter
        (fun r => r.cry_id == cid)).length ≤ 1 := by
      rw [List.filter_append, hnil]
      simp
    constructor
    · rw [hB, hA]
      exact updateRaw_filter_eq _ cid v2 hlenA hanyA2
    · rw [hB, hA, updateRaw_filter_ne, List.filter_append]
      simp

/-- Database used in the C7 witness: one record under an unrelated id. -/
def exDbC7 : Db := { raws := [{ cry_id := 9, embedding_json := [5] }] }

/-- Witness for C7's amended theorem: store twice under id 1. -/
theorem store_raw_upsert_witness :
    (exDbC7.raws.filter (fun r => r.cry_id == 1)).length ≤ 1
    ∧ (store_raw_embedding (store_raw_embedding exDbC7 1 [7]) 1 [8]).raws.filter
        (fun r => r.cry_id == 1)
      = [{ cry_id := 1, embedding_json := [8] }] :=
  ⟨by decide, (store_raw_upsert exDbC7 1 [7] [8] (by decide)).1⟩

/-- C3: every hit returned by `search_similar` belongs to the querying
user: the Chroma `where` clause always contains the owner filter, so no
entry of a different owner is ever returned, for every collection, query
vector, `k` and `filter_validated` setting (and also when the external
query fails and the adapter returns the empty list). -/
theorem search_similar_isolation (col : Collection) (user_id : ℕ) (embedding : Vec)
    (k : ℕ) (filter_validated queryOk : Bool) (h : SimilarHit)
    (hmem : h ∈ search_similar col user_id embedding k filter_validated queryOk) :
    h.user_id = user_id := by
  unfold search_similar at hmem
  by_cases hq : queryOk = true
  · rw [if_pos hq] at hmem
    have h1 := List.take_subset _ _ hmem
    rw [mem_sortByDist] at h1
    obtain ⟨e, he, hfe⟩ := List.mem_map.mp h1
    have hw := (List.mem_filter.mp he).2
    unfold whereMatch at hw
    have heq : e.user_id = user_id := by
      have := (Bool.and_eq_true _ _).mp hw
      simpa using this.1
    rw [← hfe]
    exact heq
  · rw [if_neg hq] at hmem
    simp at hmem

/-- Collection used in the C3 witness: one labeled entry of user 1. -/
def exColC3 : Collection :=
  [{ cry_id := 5, user_id := 1, embedding := [], has_reason := 1, timestamp := "" }]

/-- The hit `search_similar` returns on `exColC3`. -/
def exHitC3 : SimilarHit :=
  { cry_id := 5, user_id := 1, has_reason := 1, timestamp := "",
    distance := sqDist [] [], similarity := 1 - sqDist [] [] }

/-- Witness for C3: the concrete query returns `exHitC3`, whose owner is
the querying user. -/
theorem search_similar_isolation_witness :
    exHitC3 ∈ search_similar exColC3 1 [] 3 true true ∧ exHitC3.user_id = 1 :=
  have hm : exHitC3 ∈ search_similar exColC3 1 [] 3 true true := by
    show exHitC3 ∈ [exHitC3]
    exact List.mem_singleton.mpr rfl
  ⟨hm, search_similar_isolation exColC3 1 [] 3 true true exHitC3 hm⟩

/-- C2: whenever the cry exists and feature extraction succeeds, if the
owner's count of validated-and-labeled cries is below
`NUM_CRIES_FOR_PREDICTIONS`, `predict_cry_reason` returns
`needs_manual_labeling` with `validated_count` equal to that count, and
performs no KNN retrieval, no historical-context assembly and no
generation call. -/
theorem predict_gate_insufficient_labels (db : Db) (col : Collection)
    (cry_id user_id : ℕ) (env : PredictEnv) (cry : CryInstanceR) (v : Vec)
    (hc : db.cries.find? (fun c => c.id == cry_id) = some cry)
    (he : env.embed = .ok v)
    (hL : validatedLabeledCount db user_id < NUM_CRIES_FOR_PREDICTIONS) :
    (predict_cry_reason db col cry_id user_id env).result.status = "needs_manual_labeling"
    ∧ (predict_cry_reason db col cry_id user_id env).result.validated_count
        = some (validatedLabeledCount db user_id)
    ∧ (predict_cry_reason db col cry_id user_id env).trace.searchQuery = none
    ∧ (predict_cry_reason db col cry_id user_id env).trace.contextBuilt = false
    ∧ (predict_cry_reason db col cry_id user_id env).trace.openaiCalled = false := by
  unfold predict_cry_reason
  rw [hc, he]
  simp [hL]

/-- Shorthand for a cry row with the fields relevant to the gate. -/
def cryR (i uid : ℕ) (r : Option String) (vs : Option Bool) : CryInstanceR :=
  { id := i, user_id := uid, reason := r, validation_status := vs }

/-- Database used in the C2 witness: user 1 has four validated+labeled
cries and a fifth unlabeled one (Scenario A of the spec). -/
def exDbC2 : Db :=
  { cries := [cryR 1 1 (some "hungry") (some true), cryR 2 1 (some "tired") (some true),
              cryR 3 1 (some "hungry") (some true), cryR 4 1 (some "hungry") (some true),
              cryR 5 1 none none] }

/-- Environment used in the C2 witness. -/
def exEnvC2 : PredictEnv := { embed := .ok [1, 2] }

/-- Witness for C2: the concrete run returns `needs_manual_labeling` with
`validated_count = 4` and no retrieval. -/
theorem predict_gate_insufficient_labels_witness :
    (exDbC2.cries.find? (fun c => c.id == 5) = some (cryR 5 1 none none)
      ∧ exEnvC2.embed = .ok [1, 2]
      ∧ validatedLabeledCount exDbC2 1 < NUM_CRIES_FOR_PREDICTIONS)
    ∧ (predict_cry_reason exDbC2 [] 5 1 exEnvC2).result.status = "needs_manual_labeling"
    ∧ (predict_cry_reason exDbC2 [] 5 1 exEnvC2).result.validated_count
        = some (validatedLabeledCount exDbC2 1) :=
  have happ := predict_gate_insufficient_labels exDbC2 [] 5 1 exEnvC2
    (cryR 5 1 none none) [1, 2] rfl rfl (by decide)
  ⟨⟨rfl, rfl, by decide⟩, happ.1, happ.2.1⟩

/-- Every branch of the predictor either does not report success or
reports the `"normal"` confidence tier (the `"low"` tier is dead code:
the eligibility gate already returned before it could be produced). -/
theorem predict_retrieval_status_confidence (dbp : Db) (colp : Collection)
    (cry_id user_id validated_count : ℕ) (embedding : Vec) (env : PredictEnv) :
    (predict_retrieval dbp colp cry_id user_id validated_count embedding env).result.status
        ≠ "success"
    ∨ (predict_retrieval dbp colp cry_id user_id validated_count embedding env).result.confidence
        = some (if NUM_CRIES_FOR_PREDICTIONS ≤ validated_count then "normal" else "low") := by
  simp only [predict_retrieval]
  repeat' split
  all_goals solve | (left; simp) | (right; rfl)

theorem predict_status_confidence (db : Db) (col : Collection) (cry_id user_id : ℕ)
    (env : PredictEnv) :
    (predict_cry_reason db col cry_id user_id env).result.status ≠ "success"
    ∨ (predict_cry_reason db col cry_id user_id env).result.confidence = some "normal" := by
  simp only [predict_cry_reason]
  split
  · left; exact (by decide : ¬ "" = "success")
  · split
    · left; exact (by decide : ¬ "error" = "success")
    · split
      · left; exact (by decide : ¬ "needs_manual_labeling" = "success")
      · rename_i cry hcry xe embedding hembed hge
        have hinv := predict_retrieval_status_confidence
          (process_and_store_embedding db col cry_id user_id embedding cry.reason
            (some cry.recorded_at) env.addOk env.sqrtFn env.commitOk env.deleteOkPer
            env.addOkPer).dbOut
          (process_and_store_embedding db col cry_id user_id embedding cry.reason
            (some cry.recorded_at) env.addOk env.sqrtFn env.commitOk env.deleteOkPer
            env.addOkPer).colOut
          cry_id user_id (validatedLabeledCount db user_id) embedding env
        rcases hinv with hs | hc
        · left; exact hs
        · right
          rw [hc, if_pos (Nat.le_of_not_lt hge)]

/-- C10: every `status = "success"` outcome of `predict_cry_reason`
carries `confidence = "normal"`; the below-threshold `"low"` branch is
unreachable because the gate already returned `needs_manual_labeling`
for any validated count below `NUM_CRIES_FOR_PREDICTIONS`. -/
theorem predict_success_confidence_normal (db : Db) (col : Collection)
    (cry_id user_id : ℕ) (env : PredictEnv)
    (h : (predict_cry_reason db col cry_id user_id env).result.status = "success") :
    (predict_cry_reason db col cry_id user_id env).result.confidence = some "normal" :=
  (predict_status_confidence db col cry_id user_id env).resolve_left (fun hn => hn h)

/-- Database of a fully successful prediction run: user 1 has five
validated+labeled cries, plus the fresh unlabeled cry 6. -/
def exDbS : Db :=
  { cries := [cryR 1 1 (some "hungry") (some true), cryR 2 1 (some "hungry") (some true),
              cryR 3 1 (some "hungry") (some true), cryR 4 1 (some "tired") (some true),
              cryR 5 1 (some "hungry") (some true), cryR 6 1 none none],
    raws := [],
    stats := [{ user_id := 1, mean_json := [], std_json := [], cry_count := 5 }] }

/-- Collection of the successful run: one labeled entry of user 1. -/
def exColS : Collection :=
  [{ cry_id := 1, user_id := 1, embedding := [], has_reason := 1, timestamp := "t" }]

/-- Environment of the C10 witness: generation succeeds with both
fields present. -/
def exEnvC10 : PredictEnv := { embed := .ok [], gen := .ok (some "hungry", some "feed") }

/-- Witness for C10: a concrete successful run reports the `"normal"`
tier. -/
theorem predict_success_confidence_normal_witness :
    (predict_cry_reason exDbS exColS 6 1 exEnvC10).result.status = "success"
    ∧ (predict_cry_reason exDbS exColS 6 1 exEnvC10).result.confidence = some "normal" :=
  ⟨rfl, predict_success_confidence_normal exDbS exColS 6 1 exEnvC10 rfl⟩

/-- When the generation step yields no prediction, the retrieval stage
either never called the generation service or reports
`prediction_failed`. -/
theorem predict_retrieval_gen_none (dbp : Db) (colp : Collection)
    (cry_id user_id validated_count : ℕ) (embedding : Vec) (env : PredictEnv)
    (hnone : call_openai_for_prediction env.clientAvail env.gen = none) :
    (predict_retrieval dbp colp cry_id user_id validated_count embedding env).trace.openaiCalled
        = false
    ∨ (predict_retrieval dbp colp cry_id user_id validated_count embedding env).result.status
        = "prediction_failed" := by
  simp only [predict_retrieval]
  repeat' split
  all_goals solve | (left; rfl) | (right; rfl) | simp_all

/-- Lift of `predict_retrieval_gen_none` to the whole predictor. -/
theorem predict_gen_none_invariant (db : Db) (col : Collection) (cry_id user_id : ℕ)
    (env : PredictEnv)
    (hnone : call_openai_for_prediction env.clientAvail env.gen = none) :
    (predict_cry_reason db col cry_id user_id env).trace.openaiCalled = false
    ∨ (predict_cry_reason db col cry_id user_id env).result.status = "prediction_failed" := by
  simp only [predict_cry_reason]
  split
  · left; rfl
  · split
    · left; rfl
    · split
      · left; rfl
      · exact predict_retrieval_gen_none _ _ _ _ _ _ _ hnone

/-- C9, amended: when the generation collaborator's structured response
is missing entirely or unparseable (`gen = .error ()`), any invocation
that reaches the generation call returns `status = prediction_failed`.
(A parsed response that merely lacks the `reason`/`solution` fields is
defaulted instead — see the counterexample.) -/
theorem predict_generation_failure (db : Db) (col : Collection) (cry_id user_id : ℕ)
    (env : PredictEnv)
    (hgen : env.gen = .error ())
    (hcall : (predict_cry_reason db col cry_id user_id env).trace.openaiCalled = true) :
    (predict_cry_reason db col cry_id user_id env).result.status = "prediction_failed" := by
  have hnone : call_openai_for_prediction env.clientAvail env.gen = none := by
    rw [hgen]
    unfold call_openai_for_prediction
    cases env.clientAvail <;> simp
  rcases predict_gen_none_invariant db col cry_id user_id env hnone with h0 | h1
  · rw [h0] at hcall
    cases hcall
  · exact h1

/-- Environment of the C9 counterexample: the generation service returns
a parsed JSON object with neither a `reason` nor a `solution` field. -/
def exEnvC9 : PredictEnv := { embed := .ok [], gen := .ok (none, none) }

/-- C9, counterexample: a structured response lacking both required
fields still yields `status = success` (with the defaulted prediction
`reason = "Unknown"`, `solution = ""`), not `prediction_failed`. -/
theorem predict_missing_fields_counterexample :
    exEnvC9.gen = .ok (none, none)
    ∧ (predict_cry_reason exDbS exColS 6 1 exEnvC9).result.status = "success"
    ∧ (predict_cry_reason exDbS exColS 6 1 exEnvC9).result.reason = some "Unknown"
    ∧ (predict_cry_reason exDbS exColS 6 1 exEnvC9).result.solution = some "" :=
  ⟨rfl, rfl, rfl, rfl⟩

/-- Environment of the C9 witness: the generation call fails outright. -/
def exEnvC9b : PredictEnv := { embed := .ok [], gen := .error () }

/-- Witness for C9's amended theorem: a concrete run that reaches the
generation call with a failed generation outcome reports
`prediction_failed`. -/
theorem predict_generation_failure_witness :
    (exEnvC9b.gen = .error ()
      ∧ (predict_cry_reason exDbS exColS 6 1 exEnvC9b).trace.openaiCalled = true)
    ∧ (predict_cry_reason exDbS exColS 6 1 exEnvC9b).result.status = "prediction_failed" :=
  ⟨⟨rfl, rfl⟩, predict_generation_failure exDbS exColS 6 1 exEnvC9b rfl rfl⟩

/-- Database of the C1 run: user 1 has five validated+labeled cries, the
fresh unlabeled cry 6, and non-identity statistics (`mean = [1, 0]`,
`std = [1, 1]`), so the standardized query would differ from the raw
one. -/
def exDbC1 : Db :=
  { cries := [cryR 1 1 (some "hungry") (some true), cryR 2 1 (some "hungry") (some true),
              cryR 3 1 (some "hungry") (some true), cryR 4 1 (some "tired") (some true),
              cryR 5 1 (some "hungry") (some true), cryR 6 1 none none],
    raws := [],
    stats := [{ user_id := 1, mean_json := [1, 0], std_json := [1, 1], cry_count := 5 }] }

/-- Environment of the C1 run: the extractor returns the raw vector
`[2, 3]`. -/
def exEnvC1 : PredictEnv := { embed := .ok [2, 3] }

/-- C1: the retrieval step of `predict_cry_reason` queries the similarity
index with the raw extracted vector, not with the standardized vector:
in this concrete run that reaches retrieval, the vector handed to
`search_similar` is the raw `[2, 3]`, while the owner's current
statistics are `mean = [1, 0]`, `std = [1, 1]` and the standardized
vector `standardize_embedding [2, 3] [1, 0] [1, 1]` differs from
`[2, 3]`. -/
theorem predict_queries_raw_vector :
    (predict_cry_reason exDbC1 [] 6 1 exEnvC1).trace.searchQuery = some [2, 3]
    ∧ (predict_cry_reason exDbC1 [] 6 1 exEnvC1).dbOut.stats
        = [{ user_id := 1, mean_json := [1, 0], std_json := [1, 1], cry_count := 5 }]
    ∧ standardize_embedding [2, 3] [1, 0] [1, 1] ≠ [2, 3] := by
  refine ⟨rfl, rfl, ?_⟩
  simp only [standardize_embedding, EPSILON, List.zip_cons_cons, List.zipWith_cons_cons,
    List.zip_nil_right, List.zipWith_nil_right, ne_eq, List.cons.injEq, not_and]
  intro h1
  norm_num at h1

/-! C8 infrastructure: membership facts about the index writes of the
recomputation loop. -/

theorem mem_upsertEntry_self (col : Collection) (e : ChromaEntry) :
    e ∈ upsertEntry col e := by
  induction col with
  | nil => exact List.mem_singleton.mpr rfl
  | cons x xs ih =>
    rw [upsertEntry]
    by_cases h : x.cry_id = e.cry_id
    · rw [if_pos h]
      exact List.mem_cons_self _ _
    · rw [if_neg h]
      exact List.mem_cons_of_mem _ ih

theorem mem_upsertEntry_of_ne (col : Collection) (x e : ChromaEntry)
    (he : e ∈ col) (hne : e.cry_id ≠ x.cry_id) : e ∈ upsertEntry col x := by
  induction col with
  | nil => cases he
  | cons y ys ih =>
    rw [upsertEntry]
    by_cases h : y.cry_id = x.cry_id
    · rw [if_pos h]
      rcases List.mem_cons.mp he with heq | hmem
      · exact absurd (heq ▸ h) hne
      · exact List.mem_cons_of_mem _ hmem
    · rw [if_neg h]
      rcases List.mem_cons.mp he with heq | hmem
      · exact heq ▸ List.mem_cons_self _ _
      · exact List.mem_cons_of_mem _ (ih hmem)

theorem mem_delete_of_ne (col : Collection) (cid : ℕ) (ok : Bool) (e : ChromaEntry)
    (he : e ∈ col) (hne : e.cry_id ≠ cid) : e ∈ delete_embedding col cid ok := by
  unfold delete_embedding
  split
  · exact List.mem_filter.mpr ⟨he, by simp [hne]⟩
  · exact he

/-- The index entry the recomputation loop writes for one raw record:
the vector standardized against the freshly computed statistics, with the
`label_present` flag and timestamp taken from the owning cry's current
state. -/
def resyncEntry (user_id : ℕ) (mean std : Vec) (record : CryEmbeddingRawR)
    (cry : CryInstanceR) : ChromaEntry :=
  { cry_id := record.cry_id, user_id := user_id,
    embedding := standardize_embedding record.embedding_json mean std,
    has_reason := reasonFlag cry.reason, timestamp := cry.recorded_at }

theorem resyncItem_mem_of_ne (db : Db) (user_id : ℕ) (mean std : Vec)
    (deleteOk addOk : ℕ → Bool) (col : Collection) (r : CryEmbeddingRawR)
    (e : ChromaEntry) (he : e ∈ col) (hne : r.cry_id ≠ e.cry_id) :
    e ∈ resyncItem db user_id mean std deleteOk addOk col r := by
  unfold resyncItem
  split
  · exact he
  · have hdel : e ∈ delete_embedding col r.cry_id (deleteOk r.cry_id) :=
      mem_delete_of_ne col r.cry_id _ e he (fun hh => hne hh.symm)
    unfold add_embedding
    by_cases ha : addOk r.cry_id = true
    · simp only [ha, reduceIte]
      exact mem_upsertEntry_of_ne _ _ e hdel (fun hh => hne hh.symm)
    · have ha2 : addOk r.cry_id = false := by
        cases hx : addOk r.cry_id
        · rfl
        · exact absurd hx ha
      simp only [ha2, Bool.false_eq_true, reduceIte]
      exact hdel

theorem resyncItem_mem_self (db : Db) (user_id : ℕ) (mean std : Vec)
    (deleteOk addOk : ℕ → Bool) (col : Collection) (record : CryEmbeddingRawR)
    (cry : CryInstanceR)
    (hfind : db.cries.find? (fun c => c.id == record.cry_id) = some cry)
    (haddOk : addOk record.cry_id = true) :
    resyncEntry user_id mean std record cry
      ∈ resyncItem db user_id mean std deleteOk addOk col record := by
  unfold resyncItem
  rw [hfind]
  unfold add_embedding
  simp only [haddOk, reduceIte]
  exact mem_upsertEntry_self _ _

theorem foldl_resync_preserve (db : Db) (user_id : ℕ) (mean std : Vec)
    (deleteOk addOk : ℕ → Bool) (rs : List CryEmbeddingRawR) :
    ∀ (col : Collection) (e : ChromaEntry), e ∈ col →
      (∀ r ∈ rs, r.cry_id ≠ e.cry_id) →
      e ∈ rs.foldl (resyncItem db user_id mean std deleteOk addOk) col := by
  induction rs with
  | nil => intro col e he _; simpa using he
  | cons r rs ih =>
    intro col e he hall
    rw [List.foldl_cons]
    exact ih _ e
      (resyncItem_mem_of_ne db user_id mean std deleteOk addOk col r e he
        (hall r (List.mem_cons_self _ _)))
      (fun r2 hr2 => hall r2 (List.mem_cons_of_mem _ hr2))

theorem foldl_resync_mem (db : Db) (user_id : ℕ) (mean std : Vec)
    (deleteOk addOk : ℕ → Bool) (rs : List CryEmbeddingRawR) :
    ∀ (col : Collection) (record : CryEmbeddingRawR) (cry : CryInstanceR),
      record ∈ rs → (rs.map (fun r => r.cry_id)).Nodup →
      db.cries.find? (fun c => c.id == record.cry_id) = some cry →
      addOk record.cry_id = true →
      resyncEntry user_id mean std record cry
        ∈ rs.foldl (resyncItem db user_id mean std deleteOk addOk) col := by
  induction rs with
  | nil => intro col record cry h; cases h
  | cons r rs ih =>
    intro col record cry hmem hnd hfind hadd
    rw [List.foldl_cons]
    have hmap : ((r :: rs).map (fun x => x.cry_id))
        = r.cry_id :: rs.map (fun x => x.cry_id) := rfl
    rw [hmap] at hnd
    have hnd2 := List.nodup_cons.mp hnd
    rcases List.mem_cons.mp hmem with heq | hmem2
    · subst heq
      apply foldl_resync_preserve
      · exact resyncItem_mem_self db user_id mean std deleteOk addOk col record cry
          hfind hadd
      · intro r2 hr2 hcontra
        have hc2 : r2.cry_id = record.cry_id := hcontra
        exact hnd2.1 (hc2 ▸ List.mem_map_of_mem (fun x => x.cry_id) hr2)
    · exact ih _ record cry hmem2 hnd2.2 hfind hadd

/-- C8: (1) if the user's statistics record is absent, the recomputation
job aborts before any index delete or upsert, leaving database and index
unchanged; (2) if persisting the recomputed statistics fails, the job
likewise performs no index write and no database write; (3) a single
item's resynchronization is isolated: each record whose owning cry exists
and whose index insert succeeds ends up re-upserted in the index,
independently of the other items' delete/insert failures. -/
theorem recompute_stats_failure_aborts (db : Db) (col : Collection)
    (user_id : ℕ) (sqrtFn : ℚ → ℚ) (commitOk : Bool) (deleteOk addOk : ℕ → Bool) :
    (db.stats.find? (fun s => s.user_id == user_id) = none →
      recompute_user_stats db col user_id sqrtFn commitOk deleteOk addOk
        = { dbOut := db, colOut := col, err := none })
    ∧ ((recompute_user_stats db col user_id sqrtFn false deleteOk addOk).colOut = col
        ∧ (recompute_user_stats db col user_id sqrtFn false deleteOk addOk).dbOut = db)
    ∧ (∀ (record : CryEmbeddingRawR) (cry : CryInstanceR),
        commitOk = true →
        record ∈ userRawRecords db user_id →
        ((userRawRecords db user_id).map (fun r => r.cry_id)).Nodup →
        (db.stats.find? (fun s => s.user_id == user_id)).isSome →
        db.cries.find? (fun c => c.id == record.cry_id) = some cry →
        addOk record.cry_id = true →
        resyncEntry user_id
            (npColMean ((userRawRecords db user_id).map (fun r => r.embedding_json)))
            (npColStd sqrtFn ((userRawRecords db user_id).map (fun r => r.embedding_json)))
            record cry
          ∈ (recompute_user_stats db col user_id sqrtFn commitOk deleteOk addOk).colOut) := by
  refine ⟨fun hnone => ?_, ⟨?_, ?_⟩, fun record cry hcommit hrec hnd hsome hcry hadd => ?_⟩
  · unfold recompute_user_stats
    by_cases h1 : (userCryIds db user_id).isEmpty = true
    · rw [if_pos h1]
    · rw [if_neg h1]
      by_cases h2 : (userRawRecords db user_id).isEmpty = true
      · rw [if_pos h2]
      · rw [if_neg h2, hnone]
  · unfold recompute_user_stats
    by_cases h1 : (userCryIds db user_id).isEmpty = true
    · rw [if_pos h1]
    · rw [if_neg h1]
      by_cases h2 : (userRawRecords db user_id).isEmpty = true
      · rw [if_pos h2]
      · rw [if_neg h2]
        cases hstats : db.stats.find? (fun s => s.user_id == user_id) with
        | none => rfl
        | some s => rfl
  · unfold recompute_user_stats
    by_cases h1 : (userCryIds db user_id).isEmpty = true
    · rw [if_pos h1]
    · rw [if_neg h1]
      by_cases h2 : (userRawRecords db user_id).isEmpty = true
      · rw [if_pos h2]
      · rw [if_neg h2]
        cases hstats : db.stats.find? (fun s => s.user_id == user_id) with
        | none => rfl
        | some s => rfl
  · have h2 : ¬ (userRawRecords db user_id).isEmpty = true := by
      intro hx
      rw [List.isEmpty_iff] at hx
      rw [hx] at hrec
      cases hrec
    have h1 : ¬ (userCryIds db user_id).isEmpty = true := by
      intro hx
      rw [List.isEmpty_iff] at hx
      have hempty : userRawRecords db user_id = [] := by
        simp [userRawRecords, hx]
      rw [hempty] at hrec
      cases hrec
    unfold recompute_user_stats
    rw [if_neg h1, if_neg h2]
    cases hstats : db.stats.find? (fun s => s.user_id == user_id) with
    | none =>
      rw [hstats] at hsome
      cases hsome
    | some s =>
      simp only [hcommit, reduceIte]
      exact foldl_resync_mem _ user_id _ _ deleteOk addOk
        (userRawRecords db user_id) col record cry hrec hnd hcry hadd

/-- The owning cry of the C8 witness record. -/
def exCryC8 : CryInstanceR :=
  { id := 1, user_id := 1, reason := some "hungry", recorded_at := "ts" }

/-- C8 witness database: one cry with a raw embedding and a statistics
record. -/
def exDbC8 : Db :=
  { cries := [exCryC8],
    raws := [{ cry_id := 1, embedding_json := [] }],
    stats := [{ user_id := 1, mean_json := [], std_json := [], cry_count := 0 }] }

/-- C8 witness database without a statistics record (deleted user). -/
def exDbC8b : Db :=
  { cries := [exCryC8],
    raws := [{ cry_id := 1, embedding_json := [] }],
    stats := [] }

/-- Witness for C8: concrete instances of the three parts. -/
theorem recompute_stats_failure_aborts_witness :
    (exDbC8b.stats.find? (fun s => s.user_id == 1) = none
      ∧ recompute_user_stats exDbC8b [] 1 (fun _ => 0) true (fun _ => true) (fun _ => true)
          = { dbOut := exDbC8b, colOut := [], err := none })
    ∧ (recompute_user_stats exDbC8 [] 1 (fun _ => 0) false (fun _ => true)
        (fun _ => true)).colOut = []
    ∧ ({ cry_id := 1, embedding_json := [] } : CryEmbeddingRawR) ∈ userRawRecords exDbC8 1
    ∧ resyncEntry 1
        (npColMean ((userRawRecords exDbC8 1).map (fun r => r.embedding_json)))
        (npColStd (fun _ => 0) ((userRawRecords exDbC8 1).map (fun r => r.embedding_json)))
        { cry_id := 1, embedding_json := [] } exCryC8
      ∈ (recompute_user_stats exDbC8 [] 1 (fun _ => 0) true (fun _ => true)
          (fun _ => true)).colOut := by
  have hmem : ({ cry_id := 1, embedding_json := [] } : CryEmbeddingRawR)
      ∈ userRawRecords exDbC8 1 := by
    show _ ∈ [({ cry_id := 1, embedding_json := [] } : CryEmbeddingRawR)]
    exact List.mem_singleton.mpr rfl
  refine ⟨⟨rfl, (recompute_stats_failure_aborts exDbC8b [] 1 (fun _ => 0) true
      (fun _ => true) (fun _ => true)).1 rfl⟩,
    (recompute_stats_failure_aborts exDbC8 [] 1 (fun _ => 0) false
      (fun _ => true) (fun _ => true)).2.1.1,
    hmem, ?_⟩
  exact (recompute_stats_failure_aborts exDbC8 [] 1 (fun _ => 0) true
      (fun _ => true) (fun _ => true)).2.2
    { cry_id := 1, embedding_json := [] } exCryC8 rfl hmem (by decide) rfl rfl rfl

end Babelfish
